import Mathlib

/-!
Verification development for the COLMAP processing API (`src/api/api.py`).

The Python module is a FastAPI job-orchestration layer: it stores job records
in the in-process dict `PROCESSING_JOBS`, stages input under per-job
directories derived from a uuid4 job identifier, and runs the external
`colmap.sh` pipeline in a background task that writes the terminal job record.

This file gives a shallow embedding of that module: the registry dict is an
association list with Python-dict assignment semantics, filesystem and
external-process outcomes are explicit parameters, and the HTTP endpoints
become pure functions returning `Except` for raised exceptions.
-/

namespace ColmapApi

/-- A job record as stored in `PROCESSING_JOBS`: the dicts written at
api.py lines 80-96 and 163-167 always carry exactly the keys
`status`, `message`, `output_path`. -/
structure JobRecord where
  status : String
  message : String
  output_path : Option String
deriving DecidableEq, Repr

/-- The `PROCESSING_JOBS` dict, as an insertion-ordered association list. -/
abbrev Registry := List (String × JobRecord)

/-- Python dict read `m[k]` / `k in m`: first (unique) binding of `k`. -/
def lookupR : Registry → String → Option JobRecord
  | [], _ => none
  | (k', v) :: rest, k => if k' = k then some v else lookupR rest k

/-- Python dict assignment `m[k] = v`: replaces the binding in place when `k`
is present, otherwise appends a new binding (insertion order preserved). -/
def dictAssign : Registry → String → JobRecord → Registry
  | [], k, v => [(k, v)]
  | (k', v') :: rest, k, v =>
      if k' = k then (k, v) :: rest else (k', v') :: dictAssign rest k v

/-! ## Filesystem path layout (api.py lines 24-27, 55, 65-66, 104, 126, 142) -/
/-- `os.path.join` on the absolute, separator-free components used here. -/
def pathJoin (a b : String) : String := a ++ "/" ++ b

def WORKSPACE_BASE : String := "/workspace"

def INGEST_DIR : String := pathJoin WORKSPACE_BASE "ingest"

def COLMAP_WORKSPACE : String := pathJoin WORKSPACE_BASE "colmap_workspace"

def NERFSTUDIO_OUTPUT : String := pathJoin WORKSPACE_BASE "nerfstudio_dataset"

/-- Per-job input staging directory `os.path.join(INGEST_DIR, job_id)` (line 142). -/
def ingestDir (job_id : String) : String := pathJoin INGEST_DIR job_id

/-- Per-job pipeline workspace `os.path.join(COLMAP_WORKSPACE, job_id)` (line 65). -/
def colmapWorkspaceDir (job_id : String) : String := pathJoin COLMAP_WORKSPACE job_id

/-- Per-job output directory `os.path.join(NERFSTUDIO_OUTPUT, job_id)` (lines 66, 83). -/
def nerfstudioOutputDir (job_id : String) : String := pathJoin NERFSTUDIO_OUTPUT job_id

/-- Per-job config file `os.path.join(COLMAP_WORKSPACE, f"config_{job_id}.json")` (line 55). -/
def configPath (job_id : String) : String :=
  pathJoin COLMAP_WORKSPACE ("config_" ++ job_id ++ ".json")

/-! ## Request / response / parameter models -/
/-- `ProcessingRequest` (api.py lines 31-37).  The `config` payload is an
opaque JSON object, modelled as its list of key/value entries; Python
truthiness of the dict is emptiness of that list. -/
structure ProcessingRequest where
  input_path : String
  config : Option (List (String × String)) := none
  mode : String := "batch"
  gpu : String := "auto"
  render_pipeline : String := "default"
  scale : String := "default"
deriving DecidableEq, Repr

/-- `JobStatus` response model (api.py lines 39-43). -/
structure JobStatusResp where
  job_id : String
  status : String
  message : Option String := none
  output_path : Option String := none
deriving DecidableEq, Repr

/-- The `job_params` dict built at api.py lines 152-160. -/
structure JobParams where
  job_id : String
  input_path : String
  config : Option (List (String × String))
  mode : String
  gpu : String
  render_pipeline : String
  scale : String
deriving DecidableEq, Repr

/-- Python exceptions that the endpoints can raise. -/
inductive PyErr where
  | fileNotFoundError (path : String)
  | nameError (name : String)
  | keyError (key : String)
deriving DecidableEq, Repr

/-- `fastapi.HTTPException` as raised by `get_job_status` (line 182). -/
structure HTTPExc where
  status_code : Nat
  detail : String
deriving DecidableEq, Repr

/-- Python truthiness of `params.get("config")` (line 54): `None` and the
empty dict are falsy, a non-empty dict is truthy. -/
def truthyConfig : Option (List (String × String)) → Bool
  | none => false
  | some entries => !entries.isEmpty

/-! ## Pipeline invoker: `run_colmap_script` (api.py lines 49-96) -/
/-- Outcome of the external world during one `run_colmap_script` call:
whether writing the config file raises (lines 56-57), whether
`subprocess.run` raises (line 76), and otherwise the completed process's
exit code and captured streams.  Exceptions are modelled by their `str(e)`
text. -/
structure ExecEnv where
  configWriteError : Option String := none
  launchError : Option String := none
  returncode : Int := 0
  stdout : String := ""
  stderr : String := ""
deriving DecidableEq, Repr

/-- Result of one `run_colmap_script` call: the updated `PROCESSING_JOBS`
dict, the config files written, and the argument vector handed to
`subprocess.run` (none when an exception fired before it was built). -/
structure RunOutcome where
  registry : Registry
  filesWritten : List String
  cmd : Option (List String)
deriving DecidableEq, Repr

/-- The record written on `returncode == 0` (lines 80-84). -/
def completedRecord (job_id : String) : JobRecord :=
  { status := "completed"
    message := "Processing completed successfully"
    output_path := some (nerfstudioOutputDir job_id) }

/-- The record written on failure or exception (lines 86-96). -/
def failedRecord (msg : String) : JobRecord :=
  { status := "failed", message := msg, output_path := none }

/-- The queued record stored at submission (lines 163-167). -/
def queuedRecord : JobRecord :=
  { status := "queued", message := "Job is queued for processing", output_path := none }

/-- The fixed-order argument vector of lines 61-70, before the optional
`--config` extension. -/
def baseCmd (params : JobParams) : List String :=
  ["/workspace/colmap.sh",
   if params.mode = "batch" then "--batch" else "--daemon",
   "--ingest-dir", params.input_path,
   "--colmap-workspace", colmapWorkspaceDir params.job_id,
   "--nerfstudio-output", nerfstudioOutputDir params.job_id,
   "--gpu", params.gpu,
   "--render-pipeline", params.render_pipeline,
   "--scale", params.scale]

/-- Lines 61-73: the argument vector, extended with `--config <file>` exactly
when a config file was written. -/
def buildCmd (params : JobParams) (config_file : Option String) : List String :=
  baseCmd params ++ (match config_file with
    | some cf => ["--config", cf]
    | none => [])

/-- Lines 76-90: run `subprocess.run cmd` and write the terminal record; a
launch exception falls to the `except` handler of lines 91-96. -/
def finishRun (env : ExecEnv) (params : JobParams) (jobs : Registry)
    (written : List String) (cmd : List String) : RunOutcome :=
  match env.launchError with
  | some e =>
      { registry := dictAssign jobs params.job_id (failedRecord e)
        filesWritten := written
        cmd := some cmd }
  | none =>
      if env.returncode = 0 then
        { registry := dictAssign jobs params.job_id (completedRecord params.job_id)
          filesWritten := written
          cmd := some cmd }
      else
        { registry := dictAssign jobs params.job_id (failedRecord env.stderr)
          filesWritten := written
          cmd := some cmd }

/-- `run_colmap_script` (lines 49-96).  The whole body sits in a
`try`/`except Exception` whose handler writes a failed record with the
exception text, so the function is total over the registry: every path ends
in one terminal dict assignment for `params.job_id`. -/
def run_colmap_script (env : ExecEnv) (params : JobParams) (jobs : Registry) :
    RunOutcome :=
  if truthyConfig params.config then
    match env.configWriteError with
    | some e =>
        { registry := dictAssign jobs params.job_id (failedRecord e)
          filesWritten := []
          cmd := none }
    | none =>
        finishRun env params jobs [configPath params.job_id]
          (buildCmd params (some (configPath params.job_id)))
  else
    finishRun env params jobs [] (buildCmd params none)

/-! ## Submission endpoint: `start_processing` (api.py lines 136-176) -/
/-- What the filesystem says about a path, as observed by
`os.path.isdir` / `shutil.copy`. -/
inductive PathKind where
  | dir
  | file
  | absent
deriving DecidableEq, Repr

/-- The filesystem visible to a submission. -/
abbrev Fs := String → PathKind

/-- `shutil.copy(src, dst)` (line 149): raises `FileNotFoundError` exactly
when the source path does not exist. -/
def shutil_copy (fs : Fs) (src : String) : Except PyErr Unit :=
  if fs src = PathKind.absent then Except.error (PyErr.fileNotFoundError src)
  else Except.ok ()

/-- Successful submission result: the HTTP response (lines 172-176), the
`job_params` handed to `background_tasks.add_task` (line 170), and the
updated `PROCESSING_JOBS` dict (lines 163-167). -/
structure SubmitOk where
  response : JobStatusResp
  task : JobParams
  registry : Registry
deriving DecidableEq, Repr

/-- `start_processing` (lines 136-176).  The fresh uuid4 `job_id` is passed
in explicitly.  A copy failure propagates before the registry write, so an
error leaves no job record behind. -/
def start_processing (fs : Fs) (job_id : String) (request : ProcessingRequest)
    (jobs : Registry) : Except PyErr SubmitOk :=
  let input_dir := ingestDir job_id
  -- lines 146-149: copytree for a directory, shutil.copy otherwise
  match (if fs request.input_path = PathKind.dir then Except.ok ()
         else shutil_copy fs request.input_path) with
  | Except.error e => Except.error e
  | Except.ok _ =>
      let job_params : JobParams :=
        { job_id := job_id
          input_path := input_dir
          config := request.config
          mode := request.mode
          gpu := request.gpu
          render_pipeline := request.render_pipeline
          scale := request.scale }
      let jobs' := dictAssign jobs job_id queuedRecord
      -- lines 172-176 read the response fields back out of the dict
      match lookupR jobs' job_id with
      | none => Except.error (PyErr.keyError job_id)
      | some rec =>
          Except.ok
            { response :=
                { job_id := job_id
                  status := rec.status
                  message := some rec.message
                  output_path := none }
              task := job_params
              registry := jobs' }

/-- `get_job_status` (lines 178-189). -/
def get_job_status (jobs : Registry) (job_id : String) :
    Except HTTPExc JobStatusResp :=
  match lookupR jobs job_id with
  | none => Except.error { status_code := 404, detail := "Job not found" }
  | some rec =>
      Except.ok
        { job_id := job_id
          status := rec.status
          message := some rec.message
          output_path := rec.output_path }

/-- `list_jobs` (lines 191-194): returns the registry dict itself. -/
def list_jobs (jobs : Registry) : Registry := jobs

/-! ## Name resolution for the upload endpoints (api.py lines 100-134)

The module imports names only at lines 1-11 and binds its own top-level
definitions; `upload_files` and `process_uploaded_files` additionally
reference `UploadFile`, `File`, `Form` and `aiofiles`, which no import
statement mentions.  Python resolves a global name against the module's
bindings and the builtins; an unbound name raises `NameError` before the
referencing expression produces any effect. -/
/-- Names bound by the module's import statements (api.py lines 2-11). -/
def moduleImports : List String :=
  ["FastAPI", "HTTPException", "BackgroundTasks", "CORSMiddleware",
   "BaseModel", "subprocess", "os", "shutil", "uuid", "Optional",
   "logging", "json"]

/-- Names bound by the module's own top-level statements. -/
def moduleTopLevel : List String :=
  ["app", "WORKSPACE_BASE", "INGEST_DIR", "COLMAP_WORKSPACE",
   "NERFSTUDIO_OUTPUT", "PROCESSING_JOBS", "ProcessingRequest", "JobStatus",
   "generate_job_id", "run_colmap_script", "upload_files",
   "process_uploaded_files", "start_processing", "get_job_status",
   "list_jobs"]

/-- Python builtins referenced anywhere in the module. -/
def pythonBuiltins : List String :=
  ["str", "list", "dict", "open", "Exception", "None", "True", "False"]

/-- Whether a global name lookup in this module succeeds. -/
def resolves (n : String) : Bool :=
  moduleImports.contains n || moduleTopLevel.contains n || pythonBuiltins.contains n

/-- The first name, in evaluation order, whose lookup raises `NameError`. -/
def firstUnresolved (ns : List String) : Option String :=
  ns.find? (fun n => !(resolves n))

/-- Global names referenced by `upload_files` (lines 100-112), in source
order: the signature annotation and default, then the body. -/
def upload_files_refs : List String :=
  ["list", "UploadFile", "File", "generate_job_id", "os", "aiofiles", "str"]

/-- Global names referenced by `process_uploaded_files` (lines 114-134), in
source order. -/
def process_uploaded_files_refs : List String :=
  ["BackgroundTasks", "list", "UploadFile", "File", "str", "Form",
   "generate_job_id", "os", "aiofiles"]

/-- `upload_files` (lines 100-112): resolves its referenced globals in
order; on the first unbound name the call raises `NameError`, leaving the
registry and the background task queue untouched.  (If all names resolved,
the body would save the files and return a job_id/message dict without
touching the registry.) -/
def upload_files (job_id : String) (jobs : Registry) (pending : List JobParams) :
    Except PyErr (String × String) × Registry × List JobParams :=
  match firstUnresolved upload_files_refs with
  | some n => (Except.error (PyErr.nameError n), jobs, pending)
  | none => (Except.ok (job_id, "Files uploaded successfully"), jobs, pending)

/-- `process_uploaded_files` (lines 114-134): resolves its referenced
globals in order; on the first unbound name the call raises `NameError`.
(Even if all names resolved, the body as written saves the uploads and then
falls off the end: it registers no job, schedules no task and returns no
`JobStatus`, modelled by the `none` payload.) -/
def process_uploaded_files (_job_id : String) (jobs : Registry)
    (pending : List JobParams) :
    Except PyErr (Option JobStatusResp) × Registry × List JobParams :=
  match firstUnresolved process_uploaded_files_refs with
  | some n => (Except.error (PyErr.nameError n), jobs, pending)
  | none => (Except.ok none, jobs, pending)

/-! ## System state machine

One state bundles the `PROCESSING_JOBS` dict with the background tasks that
have been scheduled by `background_tasks.add_task` but not yet run.  The
steps are the operations of the module: submission (`/process`), background
execution of one scheduled task, a status query (`/status/{job_id}`) and the
listing (`/jobs`); the two queries never write.  uuid4 identifier freshness
is modelled by the submission step's hypothesis that the generated id is not
already a registry key. -/
structure SysState where
  jobs : Registry
  pending : List JobParams
deriving DecidableEq, Repr

/-- One `/process` request: run `start_processing`; on success install the
updated dict and append the scheduled background task, on an exception the
state is untouched (the registry write at lines 163-167 happens after the
copy step that can raise). -/
def submit (fs : Fs) (job_id : String) (request : ProcessingRequest)
    (s : SysState) : SysState × Except PyErr JobStatusResp :=
  match start_processing fs job_id request s.jobs with
  | Except.error e => (s, Except.error e)
  | Except.ok r => (⟨r.registry, s.pending ++ [r.task]⟩, Except.ok r.response)

/-- The operations of the module, as a step relation on system states. -/
inductive Step : SysState → SysState → Prop
  | submit (fs : Fs) (job_id : String) (request : ProcessingRequest)
      (s : SysState) (hfresh : lookupR s.jobs job_id = none) :
      Step s (submit fs job_id request s).1
  | execute (env : ExecEnv) (t : JobParams) (l₁ l₂ : List JobParams)
      (s : SysState) (hp : s.pending = l₁ ++ t :: l₂) :
      Step s ⟨(run_colmap_script env t s.jobs).registry, l₁ ++ l₂⟩
  | getStatus (job_id : String) (s : SysState) : Step s s
  | listJobs (s : SysState) : Step s s

/-- States reachable from the empty module state (`PROCESSING_JOBS = {}`). -/
inductive Reachable : SysState → Prop
  | init : Reachable ⟨[], []⟩
  | step {s s' : SysState} : Reachable s → Step s s' → Reachable s'

/-- Structural invariant: every scheduled-but-unrun task still has its
queued record in the registry, and no two scheduled tasks share a job id. -/
def Inv (s : SysState) : Prop :=
  (∀ p ∈ s.pending, lookupR s.jobs p.job_id = some queuedRecord) ∧
  (s.pending.map JobParams.job_id).Nodup

/-! ## Characterization lemmas for the endpoint functions -/
/-- The `job_params` dict a successful submission schedules (lines 152-160). -/
def taskOf (job_id : String) (request : ProcessingRequest) : JobParams :=
  { job_id := job_id
    input_path := ingestDir job_id
    config := request.config
    mode := request.mode
    gpu := request.gpu
    render_pipeline := request.render_pipeline
    scale := request.scale }

/-- The record written by the subprocess part of `run_colmap_script`
(lines 76-90, falling to the handler of lines 91-96 on a launch error). -/
def finishRecord (env : ExecEnv) (t : JobParams) : JobRecord :=
  match env.launchError with
  | some e => failedRecord e
  | none =>
      if env.returncode = 0 then completedRecord t.job_id
      else failedRecord env.stderr

/-- The terminal record `run_colmap_script` writes for its job. -/
def terminalRecord (env : ExecEnv) (t : JobParams) : JobRecord :=
  if truthyConfig t.config then
    match env.configWriteError with
    | some e => failedRecord e
    | none => finishRecord env t
  else finishRecord env t

/-- The output-path discipline a single record can satisfy. -/
def recordWf (r : JobRecord) : Prop :=
  r.output_path ≠ none ↔ r.status = "completed"

/-! ## Path disjointness

All per-job filesystem locations are built by joining a fixed root with the
job id (or embedding the job id in a file name).  Job ids are produced by
`str(uuid.uuid4())` (line 47): 36 characters drawn from the lowercase
hexadecimal digits and the dash. -/
/-- Boolean list-prefix test, used to express "lies under a directory". -/
def listIsPrefixB : List Char → List Char → Bool
  | [], _ => true
  | _ :: _, [] => false
  | a :: u, b :: v => a == b && listIsPrefixB u v

/-- `child` lies strictly under the directory `parent`. -/
def pathUnder (parent child : String) : Bool :=
  listIsPrefixB (parent ++ "/").data child.data

/-- The filesystem locations allocated to one job: input staging directory,
pipeline workspace directory, output directory, per-job config file. -/
def jobPaths (job_id : String) : List String :=
  [ingestDir job_id, colmapWorkspaceDir job_id, nerfstudioOutputDir job_id,
   configPath job_id]

/-- A character `str(uuid.uuid4())` can produce. -/
def isUuidChar (c : Char) : Bool :=
  ('0' ≤ c && c ≤ '9') || ('a' ≤ c && c ≤ 'f') || c = '-'

/-- The shape of `str(uuid.uuid4())`. -/
def isUuidString (s : String) : Bool :=
  (s.data.length == 36) && s.data.all isUuidChar

/-! ## Concrete scenario used by the witnesses -/
/-- A filesystem on which every path is a directory. -/
def fsStub : Fs := fun _ => PathKind.dir

/-- A filesystem on which no path exists. -/
def fsEmpty : Fs := fun _ => PathKind.absent

def reqStub : ProcessingRequest := { input_path := "/data/in" }

def reqCfg : ProcessingRequest :=
  { input_path := "/data/in", config := some [("key", "value")] }

def uuidA : String := "11111111-1111-4111-8111-111111111111"

def uuidB : String := "22222222-2222-4222-8222-222222222222"

/-- A pipeline run that succeeds with exit code 0. -/
def envOk : ExecEnv := {}

/-- A pipeline run that exits 1 with diagnostic output on stderr. -/
def envExit1 : ExecEnv := { returncode := 1, stderr := "no images found" }

/-- A pipeline launch that raises. -/
def envLaunchErr : ExecEnv := { launchError := some "No such file or directory" }

/-- State after submitting one job with id `uuidA`. -/
def s1 : SysState := (submit fsStub uuidA reqStub ⟨[], []⟩).1

/-- State after the background task of that job ran successfully. -/
def s2 : SysState :=
  ⟨(run_colmap_script envOk (taskOf uuidA reqStub) s1.jobs).registry, []⟩

theorem lookupR_dictAssign_self (m : Registry) (k : String) (v : JobRecord) :
    lookupR (dictAssign m k v) k = some v := by
  induction m with
  | nil => simp [dictAssign, lookupR]
  | cons hd tl ih =>
      obtain ⟨k', v'⟩ := hd
      by_cases h : k' = k
      · simp [dictAssign, lookupR, h]
      · simp [dictAssign, lookupR, h, ih]

theorem lookupR_dictAssign_ne (m : Registry) (k k' : String) (v : JobRecord)
    (h : k' ≠ k) : lookupR (dictAssign m k v) k' = lookupR m k' := by
  have hkk : k ≠ k' := Ne.symm h
  induction m with
  | nil => simp [dictAssign, lookupR, hkk]
  | cons hd tl ih =>
      obtain ⟨k₀, v₀⟩ := hd
      by_cases hk : k₀ = k
      · subst hk
        simp [dictAssign, lookupR, hkk]
      · simp [dictAssign, lookupR, hk, ih]

/-- Every record found after a dict assignment is either the assigned record
or was already present under the same key. -/
theorem lookupR_dictAssign_cases (m : Registry) (k k' : String) (v r : JobRecord)
    (h : lookupR (dictAssign m k v) k' = some r) :
    r = v ∨ lookupR m k' = some r := by
  by_cases hk : k' = k
  · subst hk
    rw [lookupR_dictAssign_self] at h
    exact Or.inl (Option.some.inj h).symm
  · right
    rw [lookupR_dictAssign_ne m k k' v hk] at h
    exact h

theorem start_processing_ok (fs : Fs) (job_id : String)
    (request : ProcessingRequest) (jobs : Registry)
    (hvalid : fs request.input_path ≠ PathKind.absent) :
    start_processing fs job_id request jobs =
      Except.ok
        { response :=
            { job_id := job_id
              status := "queued"
              message := some "Job is queued for processing"
              output_path := none }
          task := taskOf job_id request
          registry := dictAssign jobs job_id queuedRecord } := by
  unfold start_processing shutil_copy
  cases h : fs request.input_path with
  | dir => simp [h, lookupR_dictAssign_self, taskOf, queuedRecord]
  | file => simp [h, lookupR_dictAssign_self, taskOf, queuedRecord]
  | absent => exact absurd h hvalid

theorem start_processing_absent (fs : Fs) (job_id : String)
    (request : ProcessingRequest) (jobs : Registry)
    (h : fs request.input_path = PathKind.absent) :
    start_processing fs job_id request jobs =
      Except.error (PyErr.fileNotFoundError request.input_path) := by
  unfold start_processing shutil_copy
  simp [h]

theorem submit_ok (fs : Fs) (job_id : String) (request : ProcessingRequest)
    (s : SysState) (hvalid : fs request.input_path ≠ PathKind.absent) :
    submit fs job_id request s =
      (⟨dictAssign s.jobs job_id queuedRecord,
        s.pending ++ [taskOf job_id request]⟩,
       Except.ok
         { job_id := job_id
           status := "queued"
           message := some "Job is queued for processing"
           output_path := none }) := by
  unfold submit
  rw [start_processing_ok fs job_id request s.jobs hvalid]

theorem submit_absent (fs : Fs) (job_id : String) (request : ProcessingRequest)
    (s : SysState) (h : fs request.input_path = PathKind.absent) :
    submit fs job_id request s =
      (s, Except.error (PyErr.fileNotFoundError request.input_path)) := by
  unfold submit
  rw [start_processing_absent fs job_id request s.jobs h]

theorem run_colmap_script_registry (env : ExecEnv) (t : JobParams)
    (jobs : Registry) :
    (run_colmap_script env t jobs).registry =
      dictAssign jobs t.job_id (terminalRecord env t) := by
  unfold run_colmap_script finishRun terminalRecord finishRecord
  by_cases hc : truthyConfig t.config <;>
    rcases hcw : env.configWriteError with _ | e₁ <;>
    rcases hle : env.launchError with _ | e₂ <;>
    by_cases hr : env.returncode = 0 <;>
    simp [hc, hcw, hle, hr]

/-- Every terminal record has status `completed` or `failed`, never
`queued`. -/
theorem terminalRecord_status (env : ExecEnv) (t : JobParams) :
    (terminalRecord env t).status = "completed" ∨
      (terminalRecord env t).status = "failed" := by
  unfold terminalRecord finishRecord
  by_cases hc : truthyConfig t.config <;>
    rcases hcw : env.configWriteError with _ | e₁ <;>
    rcases hle : env.launchError with _ | e₂ <;>
    by_cases hr : env.returncode = 0 <;>
    simp [hc, hcw, hle, hr, completedRecord, failedRecord]

theorem queuedRecord_wf : recordWf queuedRecord := by
  simp [recordWf, queuedRecord]

theorem completedRecord_wf (job_id : String) :
    recordWf (completedRecord job_id) := by
  simp [recordWf, completedRecord]

theorem failedRecord_wf (m : String) : recordWf (failedRecord m) := by
  simp [recordWf, failedRecord]

theorem terminalRecord_wf (env : ExecEnv) (t : JobParams) :
    recordWf (terminalRecord env t) := by
  unfold terminalRecord finishRecord
  by_cases hc : truthyConfig t.config <;>
    rcases hcw : env.configWriteError with _ | e₁ <;>
    rcases hle : env.launchError with _ | e₂ <;>
    by_cases hr : env.returncode = 0 <;>
    simp [hc, hcw, hle, hr, completedRecord_wf, failedRecord_wf]

/-! ## Invariant preservation -/
theorem inv_init : Inv ⟨[], []⟩ := by
  constructor
  · intro p hp
    cases hp
  · simp

theorem inv_step {s s' : SysState} (hinv : Inv s) (hstep : Step s s') :
    Inv s' := by
  obtain ⟨hq, hnd⟩ := hinv
  cases hstep with
  | submit fs job_id request s hfresh =>
      by_cases hvalid : fs request.input_path = PathKind.absent
      · rw [submit_absent fs job_id request s hvalid]
        exact ⟨hq, hnd⟩
      · rw [submit_ok fs job_id request s hvalid]
        have hfresh_pend : job_id ∉ s.pending.map JobParams.job_id := by
          intro hmem
          obtain ⟨p, hp, hpe⟩ := List.mem_map.mp hmem
          have hpq := hq p hp
          rw [hpe, hfresh] at hpq
          cases hpq
        constructor
        · intro p hp
          rcases List.mem_append.mp hp with hp | hp
          · have hpq := hq p hp
            have hne : p.job_id ≠ job_id := by
              intro he
              exact hfresh_pend (he ▸ List.mem_map_of_mem JobParams.job_id hp)
            rw [lookupR_dictAssign_ne s.jobs job_id p.job_id queuedRecord hne]
            exact hpq
          · have hpe : p = taskOf job_id request := by simpa using hp
            rw [hpe]
            exact lookupR_dictAssign_self s.jobs job_id queuedRecord
        · rw [List.map_append]
          rw [List.nodup_append]
          refine ⟨hnd, by simp, ?_⟩
          intro x hx hx'
          have hxe : x = job_id := by simpa [taskOf] using hx'
          exact hfresh_pend (hxe ▸ hx)
  | execute env t l₁ l₂ s hp =>
      have hnd' : (l₁.map JobParams.job_id ++ t.job_id :: l₂.map JobParams.job_id).Nodup := by
        rw [hp] at hnd
        simpa using hnd
      have hmid := List.nodup_cons.mp (List.nodup_middle.mp hnd')
      constructor
      · intro p hpm
        have hpmem : p ∈ s.pending := by
          rw [hp]
          rcases List.mem_append.mp hpm with h | h
          · exact List.mem_append.mpr (Or.inl h)
          · exact List.mem_append.mpr (Or.inr (List.mem_cons_of_mem t h))
        have hpq := hq p hpmem
        have hne : p.job_id ≠ t.job_id := by
          intro he
          apply hmid.1
          rw [← he]
          rcases List.mem_append.mp hpm with h | h
          · exact List.mem_append.mpr (Or.inl (List.mem_map_of_mem JobParams.job_id h))
          · exact List.mem_append.mpr (Or.inr (List.mem_map_of_mem JobParams.job_id h))
        rw [run_colmap_script_registry]
        rw [lookupR_dictAssign_ne s.jobs t.job_id p.job_id (terminalRecord env t) hne]
        exact hpq
      · rw [List.map_append]
        exact hmid.2
  | getStatus job_id s => exact ⟨hq, hnd⟩
  | listJobs s => exact ⟨hq, hnd⟩

theorem reachable_inv {s : SysState} (h : Reachable s) : Inv s := by
  induction h with
  | init => exact inv_init
  | step hr hstep ih => exact inv_step ih hstep

/-- Every record ever found in a reachable registry satisfies the
output-path discipline. -/
theorem reachable_recordWf {s : SysState} (h : Reachable s) :
    ∀ k r, lookupR s.jobs k = some r → recordWf r := by
  induction h with
  | init =>
      intro k r hk
      cases hk
  | @step st st' hr hstep ih =>
      clear hr
      cases hstep with
      | submit fs job_id request hfresh =>
          intro k r hk
          by_cases hvalid : fs request.input_path = PathKind.absent
          · rw [submit_absent fs job_id request st hvalid] at hk
            exact ih k r hk
          · rw [submit_ok fs job_id request st hvalid] at hk
            rcases lookupR_dictAssign_cases st.jobs job_id k queuedRecord r hk with he | he
            · exact he ▸ queuedRecord_wf
            · exact ih k r he
      | execute env t l₁ l₂ hp =>
          intro k r hk
          rw [run_colmap_script_registry] at hk
          rcases lookupR_dictAssign_cases st.jobs t.job_id k (terminalRecord env t) r hk with he | he
          · exact he ▸ terminalRecord_wf env t
          · exact ih k r he
      | getStatus job_id => exact ih
      | listJobs => exact ih

theorem listIsPrefixB_length {u v : List Char}
    (h : listIsPrefixB u v = true) : u.length ≤ v.length := by
  induction u generalizing v with
  | nil => simp
  | cons a u ih =>
      cases v with
      | nil => cases h
      | cons b v =>
          simp only [listIsPrefixB, Bool.and_eq_true] at h
          simpa using ih h.2

theorem listIsPrefixB_false_of_lt {u v : List Char}
    (h : v.length < u.length) : listIsPrefixB u v = false := by
  cases hb : listIsPrefixB u v
  · rfl
  · exact absurd (listIsPrefixB_length hb) (by omega)

theorem listIsPrefixB_getElem {u v : List Char}
    (h : listIsPrefixB u v = true) (i : Nat) (hi : i < u.length) :
    v[i]? = u[i]? := by
  induction u generalizing v i with
  | nil => exact absurd hi (by simp)
  | cons a u ih =>
      cases v with
      | nil => cases h
      | cons b v =>
          simp only [listIsPrefixB, Bool.and_eq_true, beq_iff_eq] at h
          cases i with
          | zero => simp [h.1]
          | succ i =>
              simp only [List.getElem?_cons_succ]
              exact ih h.2 i (by simpa using hi)

theorem listIsPrefixB_false_of_disagree {u v : List Char} (i : Nat)
    (hi : i < u.length) (hne : u[i]? ≠ v[i]?) : listIsPrefixB u v = false := by
  cases hb : listIsPrefixB u v
  · rfl
  · exact absurd (listIsPrefixB_getElem hb i hi).symm hne

theorem ne_of_disagree {u v : List Char} (i : Nat) (hne : u[i]? ≠ v[i]?) :
    u ≠ v := fun he => hne (he ▸ rfl)

theorem string_data_append (s t : String) : (s ++ t).data = s.data ++ t.data := by
  cases s
  cases t
  rfl

theorem string_eq_of_data {s t : String} (h : s.data = t.data) : s = t := by
  cases s
  cases t
  exact congrArg String.mk h

theorem ingestDir_data (j : String) :
    (ingestDir j).data = "/workspace/ingest/".data ++ j.data := by
  have h : ingestDir j = "/workspace/ingest/" ++ j := rfl
  rw [h, string_data_append]

theorem colmapWorkspaceDir_data (j : String) :
    (colmapWorkspaceDir j).data = "/workspace/colmap_workspace/".data ++ j.data := by
  have h : colmapWorkspaceDir j = "/workspace/colmap_workspace/" ++ j := rfl
  rw [h, string_data_append]

theorem nerfstudioOutputDir_data (j : String) :
    (nerfstudioOutputDir j).data = "/workspace/nerfstudio_dataset/".data ++ j.data := by
  have h : nerfstudioOutputDir j = "/workspace/nerfstudio_dataset/" ++ j := rfl
  rw [h, string_data_append]

theorem configPath_data (j : String) :
    (configPath j).data =
      "/workspace/colmap_workspace/config_".data ++ (j.data ++ ".json".data) := by
  have h : configPath j = "/workspace/colmap_workspace/" ++ ("config_" ++ j ++ ".json") := rfl
  rw [h, string_data_append, string_data_append, string_data_append]
  simp only [← List.append_assoc]
  have hAC : "/workspace/colmap_workspace/".data ++ "config_".data =
      "/workspace/colmap_workspace/config_".data := by decide
  rw [hAC]

theorem isUuidString_length {s : String} (h : isUuidString s = true) :
    s.data.length = 36 := by
  unfold isUuidString at h
  simp only [Bool.and_eq_true, beq_iff_eq] at h
  exact h.1

theorem isUuidString_snd_char {s : String} (h : isUuidString s = true) :
    ∃ c, s.data[1]? = some c ∧ isUuidChar c = true := by
  have hl := isUuidString_length h
  unfold isUuidString at h
  simp only [Bool.and_eq_true, beq_iff_eq] at h
  have h2 := h.2
  have h1 : 1 < s.data.length := by omega
  refine ⟨s.data.get ⟨1, h1⟩, ?_, ?_⟩
  · rw [List.getElem?_eq_getElem h1]
    rfl
  · exact List.all_eq_true.mp h2 _ (s.data.get_mem 1 h1)

theorem uuidChar_ne_o {c : Char} (h : isUuidChar c = true) : c ≠ 'o' := by
  intro he
  rw [he] at h
  exact absurd h (by decide)

/-- Two paths with heads that disagree at a common index are distinct and
neither lies under the other. -/
theorem pathsDisjoint_of_disagree (i : Nat) {p q : String} {r r' x y : List Char}
    (hp : p.data = r ++ x) (hq : q.data = r' ++ y)
    (hi : i < r.length) (hi' : i < r'.length) (hne : r[i]? ≠ r'[i]?) :
    p ≠ q ∧ pathUnder p q = false ∧ pathUnder q p = false := by
  have hu : ∀ z : List Char, (r ++ z)[i]? = r[i]? := fun z => List.getElem?_append_left hi
  have hv : ∀ z : List Char, (r' ++ z)[i]? = r'[i]? := fun z => List.getElem?_append_left hi'
  refine ⟨?_, ?_, ?_⟩
  · intro he
    have hd : r ++ x = r' ++ y := by rw [← hp, ← hq, he]
    apply hne
    rw [← hu x, ← hv y, hd]
  · unfold pathUnder
    rw [string_data_append, hp, hq, List.append_assoc]
    apply listIsPrefixB_false_of_disagree i
    · rw [List.length_append]
      omega
    · rw [hu, hv]
      exact hne
  · unfold pathUnder
    rw [string_data_append, hq, hp, List.append_assoc]
    apply listIsPrefixB_false_of_disagree i
    · rw [List.length_append]
      omega
    · rw [hu, hv]
      exact Ne.symm hne

/-- Two paths sharing a root but carrying distinct same-length ids are
distinct and neither lies under the other. -/
theorem pathsDisjoint_same_root {r : List Char} {p q a b : String}
    (hp : p.data = r ++ a.data) (hq : q.data = r ++ b.data)
    (ha : a.data.length = 36) (hb : b.data.length = 36) (hab : a ≠ b) :
    p ≠ q ∧ pathUnder p q = false ∧ pathUnder q p = false := by
  have hs : ("/".data).length = 1 := by decide
  refine ⟨?_, ?_, ?_⟩
  · intro he
    apply hab
    apply string_eq_of_data
    have hd : r ++ a.data = r ++ b.data := by rw [← hp, ← hq, he]
    exact List.append_cancel_left hd
  · unfold pathUnder
    rw [string_data_append, hp, hq]
    apply listIsPrefixB_false_of_lt
    simp only [List.length_append, ha, hb, hs]
    omega
  · unfold pathUnder
    rw [string_data_append, hp, hq]
    apply listIsPrefixB_false_of_lt
    simp only [List.length_append, ha, hb, hs]
    omega

theorem configPath_length {x : String} (hx : x.data.length = 36) :
    ((configPath x).data).length = 76 := by
  rw [configPath_data]
  simp only [List.length_append, hx]
  decide

theorem colmapWorkspaceDir_length {x : String} (hx : x.data.length = 36) :
    ((colmapWorkspaceDir x).data).length = 64 := by
  rw [colmapWorkspaceDir_data]
  simp only [List.length_append, hx]
  decide

/-- The per-job config files of two distinct jobs are distinct and neither
lies under the other. -/
theorem pathsDisjoint_config_config {a b : String}
    (ha : a.data.length = 36) (hb : b.data.length = 36) (hab : a ≠ b) :
    configPath a ≠ configPath b ∧ pathUnder (configPath a) (configPath b) = false ∧
      pathUnder (configPath b) (configPath a) = false := by
  have hs : ("/".data).length = 1 := by decide
  refine ⟨?_, ?_, ?_⟩
  · intro he
    apply hab
    apply string_eq_of_data
    have hd := congrArg String.data he
    rw [configPath_data, configPath_data] at hd
    have hd2 : ("/workspace/colmap_workspace/config_".data ++ a.data) ++ ".json".data =
        ("/workspace/colmap_workspace/config_".data ++ b.data) ++ ".json".data := by
      simpa [← List.append_assoc] using hd
    exact List.append_cancel_left (List.append_cancel_right hd2)
  · unfold pathUnder
    rw [string_data_append]
    apply listIsPrefixB_false_of_lt
    rw [List.length_append, configPath_length ha, configPath_length hb, hs]
    omega
  · unfold pathUnder
    rw [string_data_append]
    apply listIsPrefixB_false_of_lt
    rw [List.length_append, configPath_length ha, configPath_length hb, hs]
    omega

/-- A job's workspace directory and any job's config file are distinct and
neither lies under the other (the config file name starts `config_`, whose
second character `o` is outside the uuid alphabet). -/
theorem pathsDisjoint_ws_config {a b : String}
    (ha : isUuidString a = true) (hb : isUuidString b = true) :
    colmapWorkspaceDir a ≠ configPath b ∧
      pathUnder (colmapWorkspaceDir a) (configPath b) = false ∧
      pathUnder (configPath b) (colmapWorkspaceDir a) = false := by
  have ha36 := isUuidString_length ha
  have hb36 := isUuidString_length hb
  have hs : ("/".data).length = 1 := by decide
  obtain ⟨c, hc1, hc2⟩ := isUuidString_snd_char ha
  have hco : c ≠ 'o' := uuidChar_ne_o hc2
  have hr28 : ("/workspace/colmap_workspace/".data).length = 28 := by decide
  have hW29 : ((colmapWorkspaceDir a).data)[29]? = some c := by
    rw [colmapWorkspaceDir_data, List.getElem?_append_right (by omega)]
    rw [hr28]
    exact hc1
  have hC29 : ((configPath b).data)[29]? = some 'o' := by
    rw [configPath_data, List.getElem?_append_left (by decide)]
    decide
  have hWlen : ((colmapWorkspaceDir a).data).length = 64 := colmapWorkspaceDir_length ha36
  refine ⟨?_, ?_, ?_⟩
  · intro he
    rw [he, hC29] at hW29
    exact hco (Option.some.inj hW29).symm
  · unfold pathUnder
    apply listIsPrefixB_false_of_disagree 29
    · rw [string_data_append, List.length_append, hWlen]
      omega
    · rw [string_data_append, List.getElem?_append_left (by omega), hW29, hC29]
      simp [hco]
  · unfold pathUnder
    apply listIsPrefixB_false_of_lt
    rw [string_data_append, List.length_append, configPath_length hb36, hs, hWlen]
    omega

theorem s1_reachable : Reachable s1 :=
  Reachable.step Reachable.init (Step.submit fsStub uuidA reqStub ⟨[], []⟩ rfl)

theorem s2_reachable : Reachable s2 :=
  Reachable.step s1_reachable
    (Step.execute envOk (taskOf uuidA reqStub) [] [] s1 (by decide))

/-! ## Claims -/
/-- C1: for every background execution of a job, the terminal registry
record is determined by the external process outcome: exit code 0 yields a
`completed` record with the success message and `output_path` set to the
job's output directory; a non-zero exit code yields a `failed` record whose
message is the captured stderr; an exception during config serialization or
process launch yields a `failed` record whose message is the exception
text.  In every case the terminal record is stored in the registry under
the job's id — `run_colmap_script` is total, so no error escapes the
background task. -/
theorem run_records_outcome (env : ExecEnv) (params : JobParams) (jobs : Registry) :
    (env.configWriteError = none → env.launchError = none → env.returncode = 0 →
      lookupR (run_colmap_script env params jobs).registry params.job_id =
        some (completedRecord params.job_id)) ∧
    (env.configWriteError = none → env.launchError = none → env.returncode ≠ 0 →
      lookupR (run_colmap_script env params jobs).registry params.job_id =
        some (failedRecord env.stderr)) ∧
    (∀ e, truthyConfig params.config = true → env.configWriteError = some e →
      lookupR (run_colmap_script env params jobs).registry params.job_id =
        some (failedRecord e)) ∧
    (∀ e, env.configWriteError = none → env.launchError = some e →
      lookupR (run_colmap_script env params jobs).registry params.job_id =
        some (failedRecord e)) ∧
    (∀ r, lookupR (run_colmap_script env params jobs).registry params.job_id =
        some r → r.status = "completed" ∨ r.status = "failed") := by
  have hreg := run_colmap_script_registry env params jobs
  refine ⟨?_, ?_, ?_, ?_, ?_⟩
  · intro h1 h2 h3
    rw [hreg, lookupR_dictAssign_self]
    simp [terminalRecord, finishRecord, h1, h2, h3]
  · intro h1 h2 h3
    rw [hreg, lookupR_dictAssign_self]
    simp [terminalRecord, finishRecord, h1, h2, h3]
  · intro e hc hw
    rw [hreg, lookupR_dictAssign_self]
    simp [terminalRecord, hc, hw]
  · intro e h1 hl
    rw [hreg, lookupR_dictAssign_self]
    simp [terminalRecord, finishRecord, h1, hl]
  · intro r hr
    rw [hreg, lookupR_dictAssign_self] at hr
    obtain rfl := (Option.some.inj hr).symm
    exact terminalRecord_status env params

theorem run_records_outcome_witness :
    (lookupR (run_colmap_script envOk (taskOf uuidA reqStub) []).registry uuidA =
      some (completedRecord uuidA)) ∧
    (lookupR (run_colmap_script envExit1 (taskOf uuidA reqStub) []).registry uuidA =
      some (failedRecord "no images found")) ∧
    (lookupR (run_colmap_script envLaunchErr (taskOf uuidA reqStub) []).registry uuidA =
      some (failedRecord "No such file or directory")) :=
  ⟨(run_records_outcome envOk (taskOf uuidA reqStub) []).1 rfl rfl rfl,
   (run_records_outcome envExit1 (taskOf uuidA reqStub) []).2.1 rfl rfl (by decide),
   (run_records_outcome envLaunchErr (taskOf uuidA reqStub) []).2.2.2.1
     "No such file or directory" rfl rfl⟩

/-- C2: in every reachable system state, every record stored in the
registry has `output_path` present exactly when its status is
`completed`. -/
theorem output_path_iff_completed {s : SysState} (h : Reachable s)
    (k : String) (r : JobRecord) (hk : lookupR s.jobs k = some r) :
    r.output_path ≠ none ↔ r.status = "completed" :=
  reachable_recordWf h k r hk

theorem output_path_iff_completed_witness :
    ((completedRecord uuidA).output_path ≠ none ↔
      (completedRecord uuidA).status = "completed") ∧
    (queuedRecord.output_path ≠ none ↔ queuedRecord.status = "completed") :=
  ⟨output_path_iff_completed s2_reachable uuidA (completedRecord uuidA) (by decide),
   output_path_iff_completed s1_reachable uuidA queuedRecord (by decide)⟩

/-- C3: job status is monotonic.  In any reachable state, once a job's
record is terminal (`completed` or `failed`), no step of the system —
submission with a fresh uuid, background execution of a scheduled task,
status query or listing — changes that job's record. -/
theorem status_monotonic {s s' : SysState} (hreach : Reachable s)
    (hstep : Step s s') (j : String) (r : JobRecord)
    (hj : lookupR s.jobs j = some r)
    (hterm : r.status = "completed" ∨ r.status = "failed") :
    lookupR s'.jobs j = some r := by
  obtain ⟨hq, hnd⟩ := reachable_inv hreach
  cases hstep with
  | submit fs job_id request _s hfresh =>
      by_cases hvalid : fs request.input_path = PathKind.absent
      · rw [submit_absent fs job_id request s hvalid]
        exact hj
      · rw [submit_ok fs job_id request s hvalid]
        have hne : j ≠ job_id := by
          intro he
          rw [he, hfresh] at hj
          cases hj
        show lookupR (dictAssign s.jobs job_id queuedRecord) j = some r
        rw [lookupR_dictAssign_ne s.jobs job_id j queuedRecord hne]
        exact hj
  | execute env t l₁ l₂ _s hp =>
      have htm : t ∈ s.pending := by
        rw [hp]
        exact List.mem_append.mpr (Or.inr (List.mem_cons_self t l₂))
      have htq := hq t htm
      have hne : j ≠ t.job_id := by
        intro he
        rw [he, htq] at hj
        obtain rfl := (Option.some.inj hj).symm
        simp [queuedRecord] at hterm
      show lookupR (run_colmap_script env t s.jobs).registry j = some r
      rw [run_colmap_script_registry]
      rw [lookupR_dictAssign_ne s.jobs t.job_id j (terminalRecord env t) hne]
      exact hj
  | getStatus job_id => exact hj
  | listJobs => exact hj

theorem status_monotonic_witness :
    lookupR s2.jobs uuidA = some (completedRecord uuidA) :=
  status_monotonic s2_reachable (Step.getStatus uuidB s2) uuidA
    (completedRecord uuidA) (by decide) (Or.inl rfl)

/-- C4: a submission whose input path exists registers a `queued` record
and returns the job id with status `queued` while the pipeline task is
still pending — `submit` consumes no process outcome, and the scheduled
task is only consumed by a later `Step.execute`. -/
theorem submission_returns_queued (fs : Fs) (job_id : String)
    (request : ProcessingRequest) (s : SysState)
    (hvalid : fs request.input_path ≠ PathKind.absent) :
    (submit fs job_id request s).2 =
      Except.ok
        { job_id := job_id
          status := "queued"
          message := some "Job is queued for processing"
          output_path := none } ∧
    (submit fs job_id request s).1.pending = s.pending ++ [taskOf job_id request] ∧
    lookupR (submit fs job_id request s).1.jobs job_id = some queuedRecord := by
  rw [submit_ok fs job_id request s hvalid]
  exact ⟨rfl, rfl, lookupR_dictAssign_self s.jobs job_id queuedRecord⟩

theorem submission_returns_queued_witness :
    (submit fsStub uuidA reqStub ⟨[], []⟩).2 =
      Except.ok
        { job_id := uuidA
          status := "queued"
          message := some "Job is queued for processing"
          output_path := none } ∧
    (submit fsStub uuidA reqStub ⟨[], []⟩).1.pending = [] ++ [taskOf uuidA reqStub] ∧
    lookupR (submit fsStub uuidA reqStub ⟨[], []⟩).1.jobs uuidA = some queuedRecord :=
  submission_returns_queued fsStub uuidA reqStub ⟨[], []⟩ (by decide)

/-- C5: a submission whose input path does not exist raises
`FileNotFoundError` (the spec's `InputNotFoundError`) synchronously: no
response with a job id is produced and the system state — in particular the
job registry — is unchanged. -/
theorem submission_invalid_input (fs : Fs) (job_id : String)
    (request : ProcessingRequest) (s : SysState)
    (habsent : fs request.input_path = PathKind.absent) :
    (submit fs job_id request s).2 =
      Except.error (PyErr.fileNotFoundError request.input_path) ∧
    (submit fs job_id request s).1 = s := by
  rw [submit_absent fs job_id request s habsent]
  exact ⟨rfl, rfl⟩

theorem submission_invalid_input_witness :
    (submit fsEmpty uuidA reqStub ⟨[], []⟩).2 =
      Except.error (PyErr.fileNotFoundError "/data/in") ∧
    (submit fsEmpty uuidA reqStub ⟨[], []⟩).1 = ⟨[], []⟩ :=
  submission_invalid_input fsEmpty uuidA reqStub ⟨[], []⟩ rfl

/-- C6: when the job's config payload is a non-empty dict and writing it
does not raise, the invoker writes exactly one config file, at the per-job
path `config_<job_id>.json` under the colmap workspace root, and the
argument vector it runs is the base vector extended with
`--config <that path>`; when the config is missing or empty, no file is
written and the argument vector is exactly the base vector.  The config
path embeds the job id injectively, so the file location is shared with no
other job; the vector extension consumes the written path, so the file
exists before the vector is finalized. -/
theorem config_file_discipline (env : ExecEnv) (params : JobParams)
    (jobs : Registry) (hw : env.configWriteError = none) :
    (truthyConfig params.config = true →
      (run_colmap_script env params jobs).filesWritten = [configPath params.job_id] ∧
      (run_colmap_script env params jobs).cmd =
        some (baseCmd params ++ ["--config", configPath params.job_id])) ∧
    (truthyConfig params.config = false →
      (run_colmap_script env params jobs).filesWritten = [] ∧
      (run_colmap_script env params jobs).cmd = some (baseCmd params)) ∧
    (∀ j₁ j₂ : String, configPath j₁ = configPath j₂ → j₁ = j₂) := by
  have hfin : ∀ written cmd,
      (finishRun env params jobs written cmd).filesWritten = written ∧
      (finishRun env params jobs written cmd).cmd = some cmd := by
    intro written cmd
    unfold finishRun
    rcases hle : env.launchError with _ | e
    · by_cases hr : env.returncode = 0 <;> simp [hr]
    · simp
  refine ⟨?_, ?_, ?_⟩
  · intro hc
    unfold run_colmap_script
    rw [hc, hw]
    simpa [buildCmd] using hfin [configPath params.job_id]
      (buildCmd params (some (configPath params.job_id)))
  · intro hc
    unfold run_colmap_script
    rw [hc]
    simpa [buildCmd] using hfin [] (buildCmd params none)
  · intro j₁ j₂ he
    have hd := congrArg String.data he
    rw [configPath_data, configPath_data] at hd
    apply string_eq_of_data
    have hd2 : ("/workspace/colmap_workspace/config_".data ++ j₁.data) ++ ".json".data =
        ("/workspace/colmap_workspace/config_".data ++ j₂.data) ++ ".json".data := by
      simpa [← List.append_assoc] using hd
    exact List.append_cancel_left (List.append_cancel_right hd2)

theorem config_file_discipline_witness :
    ((run_colmap_script envOk (taskOf uuidB reqCfg) []).filesWritten =
        [configPath uuidB] ∧
      (run_colmap_script envOk (taskOf uuidB reqCfg) []).cmd =
        some (baseCmd (taskOf uuidB reqCfg) ++ ["--config", configPath uuidB])) ∧
    ((run_colmap_script envOk (taskOf uuidA reqStub) []).filesWritten = [] ∧
      (run_colmap_script envOk (taskOf uuidA reqStub) []).cmd =
        some (baseCmd (taskOf uuidA reqStub))) :=
  ⟨(config_file_discipline envOk (taskOf uuidB reqCfg) [] rfl).1 rfl,
   (config_file_discipline envOk (taskOf uuidA reqStub) [] rfl).2.1 rfl⟩

/-- C7 counterexample: the registry insertion of `start_processing`
(line 163, a plain dict assignment) performed under an identifier that
already holds a record silently replaces that record and reports success —
no `DuplicateJobError` exists anywhere in the code. -/
theorem duplicate_insert_overwrites :
    (dictAssign [("job-1", failedRecord "boom")] "job-1" queuedRecord =
      [("job-1", queuedRecord)]) ∧
    (start_processing (fun _ => PathKind.dir) "job-1" { input_path := "/data/in" }
        [("job-1", failedRecord "boom")] =
      Except.ok
        { response :=
            { job_id := "job-1"
              status := "queued"
              message := some "Job is queued for processing"
              output_path := none }
          task := taskOf "job-1" { input_path := "/data/in" }
          registry := [("job-1", queuedRecord)] }) := by
  constructor
  · decide
  · rw [start_processing_ok (fun _ => PathKind.dir) "job-1"
        { input_path := "/data/in" } [("job-1", failedRecord "boom")] (by decide)]
    rfl

/-- C7 amended: inserting a job record under an identifier overwrites any
existing record under that identifier (and touches no other key); the code
performs no duplicate check and can raise no `DuplicateJobError`. -/
theorem registry_insert_overwrites (m : Registry) (k : String) (v : JobRecord)
    (_hexist : (lookupR m k).isSome = true) :
    lookupR (dictAssign m k v) k = some v ∧
      ∀ k', k' ≠ k → lookupR (dictAssign m k v) k' = lookupR m k' :=
  ⟨lookupR_dictAssign_self m k v, fun k' h => lookupR_dictAssign_ne m k k' v h⟩

theorem registry_insert_overwrites_witness :
    lookupR (dictAssign [("job-1", failedRecord "boom")] "job-1" queuedRecord)
        "job-1" = some queuedRecord ∧
      ∀ k', k' ≠ "job-1" →
        lookupR (dictAssign [("job-1", failedRecord "boom")] "job-1" queuedRecord) k' =
          lookupR [("job-1", failedRecord "boom")] k' :=
  registry_insert_overwrites [("job-1", failedRecord "boom")] "job-1" queuedRecord
    (by decide)

/-- C8: a status query for a registered job returns exactly that job's
id, status, message and output path; a query for an unknown identifier
raises HTTP 404 "Job not found" and never returns a default record. -/
theorem status_query_contract (jobs : Registry) (job_id : String) :
    (∀ r, lookupR jobs job_id = some r →
      get_job_status jobs job_id =
        Except.ok
          { job_id := job_id
            status := r.status
            message := some r.message
            output_path := r.output_path }) ∧
    (lookupR jobs job_id = none →
      get_job_status jobs job_id =
        Except.error { status_code := 404, detail := "Job not found" }) := by
  constructor
  · intro r hr
    unfold get_job_status
    rw [hr]
  · intro hr
    unfold get_job_status
    rw [hr]

theorem status_query_contract_witness :
    (get_job_status [(uuidA, completedRecord uuidA)] uuidA =
      Except.ok
        { job_id := uuidA
          status := "completed"
          message := some "Processing completed successfully"
          output_path := some (nerfstudioOutputDir uuidA) }) ∧
    (get_job_status [(uuidA, completedRecord uuidA)] uuidB =
      Except.error { status_code := 404, detail := "Job not found" }) :=
  ⟨(status_query_contract [(uuidA, completedRecord uuidA)] uuidA).1
      (completedRecord uuidA) (by decide),
   (status_query_contract [(uuidA, completedRecord uuidA)] uuidB).2 (by decide)⟩

/-- C9: for any two distinct uuid-format job identifiers, the allocated
workspace paths — input staging directory, pipeline workspace directory,
output directory and per-job config file — are pairwise disjoint: no path
of one job equals or lies under a path of the other. -/
theorem workspace_paths_disjoint (a b : String) (ha : isUuidString a = true)
    (hb : isUuidString b = true) (hab : a ≠ b) :
    ∀ p ∈ jobPaths a, ∀ q ∈ jobPaths b,
      p ≠ q ∧ pathUnder p q = false ∧ pathUnder q p = false := by
  have ha36 := isUuidString_length ha
  have hb36 := isUuidString_length hb
  intro p hp q hq
  simp only [jobPaths, List.mem_cons, List.not_mem_nil, or_false] at hp hq
  rcases hp with rfl | rfl | rfl | rfl <;> rcases hq with rfl | rfl | rfl | rfl
  · exact pathsDisjoint_same_root (ingestDir_data a) (ingestDir_data b) ha36 hb36 hab
  · exact pathsDisjoint_of_disagree 11 (ingestDir_data a) (colmapWorkspaceDir_data b)
      (by decide) (by decide) (by decide)
  · exact pathsDisjoint_of_disagree 11 (ingestDir_data a) (nerfstudioOutputDir_data b)
      (by decide) (by decide) (by decide)
  · exact pathsDisjoint_of_disagree 11 (ingestDir_data a) (configPath_data b)
      (by decide) (by decide) (by decide)
  · exact pathsDisjoint_of_disagree 11 (colmapWorkspaceDir_data a) (ingestDir_data b)
      (by decide) (by decide) (by decide)
  · exact pathsDisjoint_same_root (colmapWorkspaceDir_data a)
      (colmapWorkspaceDir_data b) ha36 hb36 hab
  · exact pathsDisjoint_of_disagree 11 (colmapWorkspaceDir_data a)
      (nerfstudioOutputDir_data b) (by decide) (by decide) (by decide)
  · exact pathsDisjoint_ws_config ha hb
  · exact pathsDisjoint_of_disagree 11 (nerfstudioOutputDir_data a) (ingestDir_data b)
      (by decide) (by decide) (by decide)
  · exact pathsDisjoint_of_disagree 11 (nerfstudioOutputDir_data a)
      (colmapWorkspaceDir_data b) (by decide) (by decide) (by decide)
  · exact pathsDisjoint_same_root (nerfstudioOutputDir_data a)
      (nerfstudioOutputDir_data b) ha36 hb36 hab
  · exact pathsDisjoint_of_disagree 11 (nerfstudioOutputDir_data a) (configPath_data b)
      (by decide) (by decide) (by decide)
  · exact pathsDisjoint_of_disagree 11 (configPath_data a) (ingestDir_data b)
      (by decide) (by decide) (by decide)
  · obtain ⟨h1, h2, h3⟩ := pathsDisjoint_ws_config hb ha
    exact ⟨Ne.symm h1, h3, h2⟩
  · exact pathsDisjoint_of_disagree 11 (configPath_data a) (nerfstudioOutputDir_data b)
      (by decide) (by decide) (by decide)
  · exact pathsDisjoint_config_config ha36 hb36 hab

theorem workspace_paths_disjoint_witness :
    ingestDir uuidA ≠ configPath uuidB ∧
      pathUnder (ingestDir uuidA) (configPath uuidB) = false ∧
      pathUnder (configPath uuidB) (ingestDir uuidA) = false :=
  workspace_paths_disjoint uuidA uuidB (by decide) (by decide) (by decide)
    (ingestDir uuidA) (by simp [jobPaths]) (configPath uuidB) (by simp [jobPaths])

/-- C10: the names `UploadFile`, `File`, `Form` and `aiofiles` referenced
by the two upload endpoints are bound by no import or top-level statement
of the module, so evaluating either endpoint raises `NameError` on one of
those names; in particular no job record is registered, no background task
is scheduled, and no `JobStatus` response is produced. -/
theorem upload_endpoints_raise_nameError (job_id : String) (jobs : Registry)
    (pending : List JobParams) :
    (resolves "UploadFile" = false ∧ resolves "File" = false ∧
      resolves "Form" = false ∧ resolves "aiofiles" = false) ∧
    (∃ n, (n = "UploadFile" ∨ n = "File" ∨ n = "Form" ∨ n = "aiofiles") ∧
      upload_files job_id jobs pending =
        (Except.error (PyErr.nameError n), jobs, pending)) ∧
    (∃ n, (n = "UploadFile" ∨ n = "File" ∨ n = "Form" ∨ n = "aiofiles") ∧
      process_uploaded_files job_id jobs pending =
        (Except.error (PyErr.nameError n), jobs, pending)) := by
  have h1 : firstUnresolved upload_files_refs = some "UploadFile" := by decide
  have h2 : firstUnresolved process_uploaded_files_refs = some "UploadFile" := by decide
  refine ⟨by decide, ⟨"UploadFile", Or.inl rfl, ?_⟩, ⟨"UploadFile", Or.inl rfl, ?_⟩⟩
  · unfold upload_files
    rw [h1]
  · unfold process_uploaded_files
    rw [h2]

end ColmapApi

